import Mathlib

/-!
Verification development for the AI-Enhanced Sales Campaign CRM pipeline
(src/crm_pipeline.py).  The Python string primitives used by the pipeline
are embedded as structurally recursive functions over the character list of
a string, so that every definition evaluates by kernel reduction.  The
language model, SMTP delivery and the random draws are external effects;
they are modelled by oracle values (an Except value per completion call, a
Bool per random draw) threaded through the stage functions.
-/

namespace CRM

/-- ASCII whitespace test matching Python str.strip and str.split defaults. -/
def pyIsSpace (c : Char) : Bool :=
  c == ' ' || c == '\t' || c == '\n' || c == '\r' || c == '\x0b' || c == '\x0c'

/-- Models Python str.strip with no argument (ASCII whitespace). -/
def pyStrip (s : String) : String :=
  String.mk (((s.data.dropWhile pyIsSpace).reverse.dropWhile pyIsSpace).reverse)

/-- Lower-cases one ASCII letter, as Python str.lower does on ASCII text. -/
def pyLowerChar (c : Char) : Char :=
  if 65 ≤ c.toNat ∧ c.toNat ≤ 90 then Char.ofNat (c.toNat + 32) else c

/-- Models Python str.lower on ASCII text. -/
def pyLower (s : String) : String :=
  String.mk (s.data.map pyLowerChar)

/-- Boolean list-prefix test. -/
def isPrefixList : List Char → List Char → Bool
  | [], _ => true
  | _ :: _, [] => false
  | p :: ps, c :: cs => p == c && isPrefixList ps cs

/-- Models Python str.startswith. -/
def pyStartsWith (s pre : String) : Bool :=
  isPrefixList pre.data s.data

/-- Splits a character list at the first occurrence of the separator,
returning the parts before and after it, or none if absent. -/
def splitOnceAux (sep : List Char) : List Char → Option (List Char × List Char)
  | [] => if isPrefixList sep [] then some ([], []) else none
  | c :: cs =>
    if isPrefixList sep (c :: cs) then some ([], (c :: cs).drop sep.length)
    else
      match splitOnceAux sep cs with
      | none => none
      | some pp => some (c :: pp.1, pp.2)

/-- Models Python s.split(sep, 1): the part before the first occurrence of
sep, and the part after it when sep occurs in s. -/
def pySplitOnce (s sep : String) : String × Option String :=
  match splitOnceAux sep.data s.data with
  | none => (s, none)
  | some pp => (String.mk pp.1, some (String.mk pp.2))

/-- Splits a character list into the groups delimited by characters
satisfying the predicate (the groups may be empty). -/
def splitIf (p : Char → Bool) : List Char → List (List Char)
  | [] => [[]]
  | c :: cs =>
    match splitIf p cs with
    | [] => [[c]]
    | g :: gs => if p c then [] :: g :: gs else (c :: g) :: gs

/-- Models Python str.splitlines for newline-delimited text: the list of
lines, with no empty trailing line after a final newline. -/
def pySplitlines (s : String) : List String :=
  match s.data with
  | [] => []
  | _ :: _ =>
    let parts := (splitIf (fun c => c == '\n') s.data).map String.mk
    if parts.getLast? = some "" then parts.dropLast else parts

/-- Models Python str.split with no argument: maximal non-empty groups of
non-whitespace characters. -/
def wsTokens (s : String) : List String :=
  ((splitIf pyIsSpace s.data).filter (fun g => !g.isEmpty)).map String.mk

/-- The number denoted by a list of decimal digits, as Python int parses a
digit string. -/
def digitsToNat (cs : List Char) : Nat :=
  cs.foldl (fun n c => 10 * n + (c.toNat - 48)) 0

/-- One lead record.  The Python code threads a dict through the stages;
the fields below are the keys the pipeline reads or writes.  A missing or
empty-string value is represented by the empty string (both are falsy in
the or-chains of the code); priority is none until the scoring stage first
writes an integer, matching the initial empty-string column value that
pandas to-numeric coercion turns into NaN. -/
structure Lead where
  first_name : String
  last_name : String
  email : String
  company : String
  title : String
  industry : String
  location : String
  persona : String
  persona_desc : String
  priority : Option Int
  priority_reason : String
  email_subject : String
  email_body : String
  status : String
  response_text : String
  response_category : String

/-- Python `a or b` on strings: the left operand unless it is empty. -/
def pyOrStr (a b : String) : String :=
  if a = "" then b else a

/-- A Python optional-string value in truthiness position: None acts as
the empty string. -/
def optStr (o : Option String) : String :=
  o.getD ""

/-- The parsed key-value lines of enrich_lead: every line containing a
colon is split at the first colon and both halves stripped. -/
def parseKV (out : String) : List (String × String) :=
  (pySplitlines out).filterMap (fun line =>
    match pySplitOnce line ":" with
    | (_, none) => none
    | (k, some v) => some (pyStrip k, pyStrip v))

/-- Python dict lookup over the association list built by parseKV: a later
binding of the same key overwrites an earlier one. -/
def dictGet (kvs : List (String × String)) (k : String) : Option String :=
  ((kvs.filter (fun p => p.1 == k)).getLast?).map (fun p => p.2)

/-- The pure part of enrich_lead: the or-chain fallbacks of
crm_pipeline.py lines 29 to 34 applied to the parsed completion text. -/
def enrich_apply (out : String) (lead : Lead) : Lead :=
  let parsed := parseKV out
  { lead with
    company := pyOrStr lead.company
      (pyOrStr (optStr (dictGet parsed "company")) (pyOrStr lead.company "")),
    title := pyOrStr lead.title (pyOrStr (optStr (dictGet parsed "title")) ""),
    industry := pyOrStr lead.industry (pyOrStr (optStr (dictGet parsed "industry")) ""),
    location := pyOrStr lead.location (pyOrStr (optStr (dictGet parsed "location")) ""),
    persona := (dictGet parsed "persona").getD "Unknown",
    persona_desc := (dictGet parsed "persona_desc").getD "" }

/-- enrich_lead: the completion call (modelled by its oracle outcome)
followed by the pure fallback merge. -/
def enrich_lead (gen : Except String String) (lead : Lead) : Except String Lead :=
  match gen with
  | Except.error e => Except.error e
  | Except.ok out => Except.ok (enrich_apply out lead)

/-- The priority branch of the score_lead line loop: on a line whose
lower-cased strip starts with priority, all digits of the raw line are
concatenated and parsed; an empty digit string falls back to 3. -/
def scorePriorityStep (acc : Int × String) (line : String) : Int × String :=
  if pyStartsWith (pyStrip (pyLower line)) "priority" then
    let ds := line.data.filter Char.isDigit
    (if ds.isEmpty then (3 : Int) else (digitsToNat ds : Int), acc.2)
  else acc

/-- The reason branch of the score_lead line loop: a line whose
lower-cased strip starts with reason is split at its first colon; a line
without a colon makes the two-element unpacking raise. -/
def scoreReasonStep (acc : Int × String) (line : String) : Except String (Int × String) :=
  if pyStartsWith (pyStrip (pyLower line)) "reason" then
    match pySplitOnce line ":" with
    | (_, some r) => Except.ok (acc.1, pyStrip r)
    | (_, none) => Except.error "not enough values to unpack (expected 2, got 1)"
  else Except.ok acc

/-- One iteration of the score_lead line loop. -/
def scoreLine (acc : Int × String) (line : String) : Except String (Int × String) :=
  scoreReasonStep (scorePriorityStep acc line) line

/-- The line loop of score_lead over the completion text, starting from
priority 3 and empty reason. -/
def score_parse (out : String) : Except String (Int × String) :=
  (pySplitlines out).foldlM scoreLine ((3 : Int), "")

/-- score_lead: the completion call followed by the line loop; on success
the priority and reason fields are written. -/
def score_lead (gen : Except String String) (lead : Lead) : Except String Lead :=
  match gen with
  | Except.error e => Except.error e
  | Except.ok out =>
    match score_parse out with
    | Except.error e => Except.error e
    | Except.ok pr => Except.ok { lead with priority := some pr.1, priority_reason := pr.2 }

/-- The pure part of draft_email: the layered Subject and Body parsing of
crm_pipeline.py lines 69 to 85. -/
def draft_apply (out : String) (lead : Lead) : Lead :=
  match pySplitOnce out "Subject:" with
  | (_, some parts) =>
    match pySplitOnce parts "Body:" with
    | (subj, some bod) =>
      { lead with email_subject := pyStrip subj, email_body := pyStrip bod }
    | (_, none) =>
      { lead with email_subject := pyStrip parts, email_body := "" }
  | (_, none) =>
    { lead with email_subject := "Quick note for " ++ lead.first_name,
                email_body := pyStrip out }

/-- draft_email: the completion call followed by the pure parsing. -/
def draft_email (gen : Except String String) (lead : Lead) : Except String Lead :=
  match gen with
  | Except.error e => Except.error e
  | Except.ok out => Except.ok (draft_apply out lead)

/-- The delivery step of main: on success status becomes sent, on failure
status becomes the send_error string and processing continues. -/
def deliver (res : Except String Unit) (lead : Lead) : Lead :=
  match res with
  | Except.ok _ => { lead with status := "sent" }
  | Except.error e => { lead with status := "send_error: " ++ e }

/-- The label cleanup of simulate_and_classify_responses line 124: first
line of the classification completion, stripped, first whitespace token.
Both indexings raise on an empty list. -/
def classifyLabel (label : String) : Except String String :=
  match pySplitlines label with
  | [] => Except.error "list index out of range"
  | l :: _ =>
    match wsTokens (pyStrip l) with
    | [] => Except.error "list index out of range"
    | t :: _ => Except.ok t

/-- The stochastic simulate decision of lines 101 to 105, with the two
random draws replaced by oracle booleans: priority at least 4 simulates on
the first draw, priority exactly 3 on the second. -/
def simDecision (p : Int) (c1 c2 : Bool) : Bool :=
  if decide (4 ≤ p) && c1 then true
  else if decide (p = 3) && c2 then true
  else false

/-- simulate_and_classify_responses: without simulation the record gets
status no_response and an empty reply; with simulation two completion
calls produce the reply and its classification label, and status becomes
replied.  The status write is unconditional in both branches. -/
def simulate_and_classify_responses (c1 c2 : Bool) (replyGen labelGen : Except String String)
    (lead : Lead) : Except String Lead :=
  let simulate := simDecision (lead.priority.getD 3) c1 c2
  if simulate = false then
    Except.ok
      { lead with status := "no_response", response_text := "",
                  response_category := "No Response" }
  else
    match replyGen with
    | Except.error e => Except.error e
    | Except.ok reply =>
      match labelGen with
      | Except.error e => Except.error e
      | Except.ok label =>
        match classifyLabel label with
        | Except.error e => Except.error e
        | Except.ok tok =>
          Except.ok
            { lead with status := "replied", response_text := reply,
                        response_category := tok }

/-- The external effects of one record: the outcome of each completion
call, the delivery outcome, and the two random draws. -/
structure StageOracle where
  enrichOut : Except String String
  scoreOut : Except String String
  draftOut : Except String String
  sendResult : Except String Unit
  coin1 : Bool
  coin2 : Bool
  replyOut : Except String String
  labelOut : Except String String

/-- The per-record body of the main loop: stages in fixed order, the
record-boundary handler turning any stage exception into an error status
on the record as mutated so far, and the non-fatal delivery step. -/
def process_record (o : StageOracle) (l0 : Lead) : Lead :=
  match enrich_lead o.enrichOut l0 with
  | Except.error e => { l0 with status := "error: " ++ e }
  | Except.ok l1 =>
    match score_lead o.scoreOut l1 with
    | Except.error e => { l1 with status := "error: " ++ e }
    | Except.ok l2 =>
      match draft_email o.draftOut l2 with
      | Except.error e => { l2 with status := "error: " ++ e }
      | Except.ok l3 =>
        let l4 := deliver o.sendResult l3
        match simulate_and_classify_responses o.coin1 o.coin2 o.replyOut o.labelOut l4 with
        | Except.error e => { l4 with status := "error: " ++ e }
        | Except.ok l5 => l5

/-- The main loop over all records: strictly sequential, every record
emitted exactly once in input order. -/
def run_pipeline (inputs : List (StageOracle × Lead)) : List Lead :=
  inputs.map (fun p => process_record p.1 p.2)

/-- The campaign summary numbers of generate_report.  Exact rational
arithmetic stands in for the float arithmetic of the code, and none stands
in for the NaN produced by a mean over an all-NaN column. -/
structure Report where
  total : Nat
  sent : Nat
  replied : Nat
  avg_priority : Option ℚ

/-- The average-priority computation of generate_report lines 138 to 142:
the 0.0 fallback fires only when the frame itself is empty; otherwise the
mean skips the non-numeric entries and is NaN when none are numeric. -/
def avgPriority (rows : List Lead) : Option ℚ :=
  if rows.isEmpty then some 0
  else
    let nums : List Int := rows.filterMap (fun r => r.priority)
    if nums.isEmpty then none
    else some ((nums.map (fun n => (n : ℚ))).sum / (nums.length : ℚ))

/-- Modelled from the spec: the average priority as the spec words it, the
mean of all numeric priority values with 0.0 when that set is empty. -/
def specAvgPriority (rows : List Lead) : ℚ :=
  let nums : List Int := rows.filterMap (fun r => r.priority)
  if nums.isEmpty then 0 else (nums.map (fun n => (n : ℚ))).sum / (nums.length : ℚ)

/-- The summary counters of generate_report lines 133 to 135 plus the
average priority. -/
def generate_report (rows : List Lead) : Report :=
  { total := rows.length,
    sent := (rows.filter (fun r => r.status == "sent" || r.status == "replied")).length,
    replied := (rows.filter (fun r => r.status == "replied")).length,
    avg_priority := avgPriority rows }

/-- A record with every field blank, as a row with only empty optional
columns enters the loop. -/
def emptyLead : Lead :=
  { first_name := "", last_name := "", email := "", company := "", title := "",
    industry := "", location := "", persona := "", persona_desc := "",
    priority := none, priority_reason := "", email_subject := "", email_body := "",
    status := "", response_text := "", response_category := "" }

/-- An oracle whose completions all succeed with empty text, whose
delivery fails, and whose random draws decline to simulate. -/
def oC1 : StageOracle :=
  { enrichOut := Except.ok "", scoreOut := Except.ok "", draftOut := Except.ok "",
    sendResult := Except.error "boom", coin1 := false, coin2 := false,
    replyOut := Except.ok "", labelOut := Except.ok "" }

/-- An oracle whose scoring completion call fails. -/
def oC7 : StageOracle :=
  { enrichOut := Except.ok "", scoreOut := Except.error "boom", draftOut := Except.ok "",
    sendResult := Except.ok (), coin1 := false, coin2 := false,
    replyOut := Except.ok "", labelOut := Except.ok "" }

/-- The blank record after enrichment on empty completion text. -/
def l1W : Lead := enrich_apply "" emptyLead

/-- The record after scoring on empty completion text. -/
def l2W : Lead := { l1W with priority := some 3, priority_reason := "" }

/-- The record after drafting on empty completion text. -/
def l3W : Lead := draft_apply "" l2W

/-- The record the simulate stage emits for the non-simulating draw. -/
def l5W : Lead :=
  { l3W with status := "no_response", response_text := "",
             response_category := "No Response" }

/-- A blank record carrying priority 5. -/
def lead5 : Lead := { emptyLead with priority := some 5 }

/-- The record the simulate stage emits from a blank record when not
simulating. -/
def noSimLead : Lead :=
  { emptyLead with status := "no_response", response_text := "",
                   response_category := "No Response" }

/-- A row whose priority column still holds its non-numeric initial value,
as an error row has. -/
def errRow : Lead := { emptyLead with status := "error: llm down" }

/-- A row that was scored with priority 4. -/
def scoredRow : Lead := { emptyLead with priority := some 4 }

/-- Two strings whose first characters differ are different. -/
lemma ne_of_headChar {s t : String} (h : s.data.head? ≠ t.data.head?) : s ≠ t :=
  fun he => h (congrArg (fun u : String => u.data.head?) he)

/-- An error status never equals the literal sent status. -/
lemma errPrefix_ne_sent (e : String) : "error: " ++ e ≠ "sent" := by
  apply ne_of_headChar
  show some 'e' ≠ some 's'
  decide

/-- An error status never equals the literal replied status. -/
lemma errPrefix_ne_replied (e : String) : "error: " ++ e ≠ "replied" := by
  apply ne_of_headChar
  show some 'e' ≠ some 'r'
  decide

/-- An error status never equals a send_error status. -/
lemma errPrefix_ne_sendError (e d : String) : "error: " ++ e ≠ "send_error: " ++ d := by
  apply ne_of_headChar
  show some 'e' ≠ some 's'
  decide

/-- The no_response status never equals a send_error status. -/
lemma noResponse_ne_sendError (d : String) : "no_response" ≠ "send_error: " ++ d := by
  apply ne_of_headChar
  show some 'n' ≠ some 's'
  decide

/-- The replied status never equals a send_error status. -/
lemma replied_ne_sendError (d : String) : "replied" ≠ "send_error: " ++ d := by
  apply ne_of_headChar
  show some 'r' ≠ some 's'
  decide

/-- A successful simulate stage leaves status no_response or replied. -/
lemma simulate_ok_status (c1 c2 : Bool) (rg lg : Except String String) (l l' : Lead)
    (h : simulate_and_classify_responses c1 c2 rg lg l = Except.ok l') :
    l'.status = "no_response" ∨ l'.status = "replied" := by
  unfold simulate_and_classify_responses at h
  dsimp only at h
  split at h
  · injection h with h'
    subst h'
    left
    rfl
  · cases rg with
    | error e => exact Except.noConfusion h
    | ok reply =>
      cases lg with
      | error e => exact Except.noConfusion h
      | ok lab =>
        dsimp only at h
        cases hcl : classifyLabel lab with
        | error e => rw [hcl] at h; exact Except.noConfusion h
        | ok tok =>
          rw [hcl] at h
          dsimp only at h
          injection h with h'
          subst h'
          right
          rfl

/-- Every record the per-record loop body emits carries one of the three
final statuses. -/
lemma status_cases (o : StageOracle) (l0 : Lead) :
    (process_record o l0).status = "no_response" ∨ (process_record o l0).status = "replied" ∨
      ∃ e, (process_record o l0).status = "error: " ++ e := by
  unfold process_record
  cases h1 : enrich_lead o.enrichOut l0 with
  | error e => dsimp only; right; right; exact ⟨e, rfl⟩
  | ok l1 =>
    dsimp only
    cases h2 : score_lead o.scoreOut l1 with
    | error e => dsimp only; right; right; exact ⟨e, rfl⟩
    | ok l2 =>
      dsimp only
      cases h3 : draft_email o.draftOut l2 with
      | error e => dsimp only; right; right; exact ⟨e, rfl⟩
      | ok l3 =>
        dsimp only
        cases h4 : simulate_and_classify_responses o.coin1 o.coin2 o.replyOut o.labelOut
            (deliver o.sendResult l3) with
        | error e => dsimp only; right; right; exact ⟨e, rfl⟩
        | ok l5 =>
          dsimp only
          rcases simulate_ok_status _ _ _ _ _ _ h4 with h | h
          · left; exact h
          · right; left; exact h

/-- For emitted records the sent-or-replied test agrees with the replied
test, because the final status is never the literal sent. -/
lemma sent_or_replied_eq (o : StageOracle) (l : Lead) :
    (((process_record o l).status == "sent") || ((process_record o l).status == "replied"))
      = ((process_record o l).status == "replied") := by
  rcases status_cases o l with h | h | ⟨e, h⟩ <;> rw [h]
  · decide
  · decide
  · have h1 : (("error: " ++ e) == "sent") = false :=
      beq_eq_false_iff_ne.mpr (errPrefix_ne_sent e)
    have h2 : (("error: " ++ e) == "replied") = false :=
      beq_eq_false_iff_ne.mpr (errPrefix_ne_replied e)
    rw [h1, h2]
    rfl

/-- The reason branch never changes the priority component. -/
lemma scoreReasonStep_fst (b acc1 : Int × String) (line : String)
    (h : scoreReasonStep b line = Except.ok acc1) : acc1.1 = b.1 := by
  unfold scoreReasonStep at h
  split at h
  · split at h
    · injection h with h'
      subst h'
      rfl
    · exact Except.noConfusion h
  · injection h with h'
    subst h'
    rfl

/-- If every priority line of a text has no digits, one loop iteration
keeps the priority component at 3. -/
lemma scoreLine_fst_default (acc acc1 : Int × String) (line : String)
    (hdig : pyStartsWith (pyStrip (pyLower line)) "priority" = true →
      line.data.filter Char.isDigit = [])
    (hacc : acc.1 = 3) (h : scoreLine acc line = Except.ok acc1) : acc1.1 = 3 := by
  unfold scoreLine at h
  have hps : (scorePriorityStep acc line).1 = 3 := by
    by_cases hp : pyStartsWith (pyStrip (pyLower line)) "priority" = true
    · simp [scorePriorityStep, hp, hdig hp]
    · simp [scorePriorityStep, hp, hacc]
  exact (scoreReasonStep_fst _ _ _ h).trans hps

/-- If every priority line of the text has no digits, the whole line loop
leaves the priority component at its incoming value 3. -/
lemma score_fold_default (lines : List String) :
    ∀ acc : Int × String, acc.1 = 3 →
    (∀ line ∈ lines, pyStartsWith (pyStrip (pyLower line)) "priority" = true →
      line.data.filter Char.isDigit = []) →
    ∀ p r, List.foldlM scoreLine acc lines = Except.ok (p, r) → p = 3 := by
  induction lines with
  | nil =>
    intro acc hacc _ p r h
    have h2 : Except.ok (ε := String) acc = Except.ok (p, r) := h
    injection h2 with h3
    rw [h3] at hacc
    exact hacc
  | cons line rest ih =>
    intro acc hacc hall p r h
    rw [List.foldlM_cons] at h
    cases hs : scoreLine acc line with
    | error e =>
      rw [hs] at h
      exact Except.noConfusion h
    | ok acc1 =>
      rw [hs] at h
      have h2 : List.foldlM scoreLine acc1 rest = Except.ok (p, r) := h
      have hacc1 : acc1.1 = 3 :=
        scoreLine_fst_default acc acc1 line (hall line (List.mem_cons_self line rest)) hacc hs
      exact ih acc1 hacc1 (fun l hl => hall l (List.mem_cons_of_mem line hl)) p r h2

/-- The reason branch succeeds whenever a reason line contains a colon. -/
lemma scoreReasonStep_ok (b : Int × String) (line : String)
    (h : pyStartsWith (pyStrip (pyLower line)) "reason" = true →
      ((pySplitOnce line ":").2).isSome = true) :
    (scoreReasonStep b line).isOk = true := by
  unfold scoreReasonStep
  by_cases hr : pyStartsWith (pyStrip (pyLower line)) "reason" = true
  · rw [if_pos hr]
    have hcolon := h hr
    cases hsp : pySplitOnce line ":" with
    | mk a ob =>
      rw [hsp] at hcolon
      cases ob with
      | none => exact absurd hcolon (by simp)
      | some r => rfl
  · rw [if_neg hr]
    rfl

/-- The line loop never raises when every reason line contains a colon. -/
lemma score_fold_ok (lines : List String) :
    ∀ acc : Int × String,
    (∀ line ∈ lines, pyStartsWith (pyStrip (pyLower line)) "reason" = true →
      ((pySplitOnce line ":").2).isSome = true) →
    (List.foldlM scoreLine acc lines).isOk = true := by
  induction lines with
  | nil => intro acc _; rfl
  | cons line rest ih =>
    intro acc hall
    rw [List.foldlM_cons]
    cases hs : scoreLine acc line with
    | error e =>
      exfalso
      have hok := scoreReasonStep_ok (scorePriorityStep acc line) line
        (hall line (List.mem_cons_self line rest))
      unfold scoreLine at hs
      rw [hs] at hok
      exact Bool.noConfusion hok
    | ok acc1 =>
      exact ih acc1 (fun l hl => hall l (List.mem_cons_of_mem line hl))

/-- The label cleanup succeeds whenever the classification text has a
first line with at least one whitespace token. -/
lemma classify_ok (out : String)
    (h1 : pySplitlines out ≠ [])
    (h2 : wsTokens (pyStrip ((pySplitlines out).headD "")) ≠ []) :
    (classifyLabel out).isOk = true := by
  unfold classifyLabel
  cases hl : pySplitlines out with
  | nil => exact absurd hl h1
  | cons l ls =>
    rw [hl] at h2
    dsimp only [List.headD] at h2
    dsimp only
    cases ht : wsTokens (pyStrip l) with
    | nil => exact absurd ht h2
    | cons t ts => rfl

/-- The or-chain of the company fallback collapses to the spec reading:
keep a non-blank value, else take the parsed value when present, else
stay blank. -/
lemma pyOr_chain (a : String) (o : Option String) :
    pyOrStr a (pyOrStr (optStr o) (pyOrStr a "")) = if a = "" then o.getD "" else a := by
  by_cases ha : a = ""
  · cases o with
    | none => simp [pyOrStr, optStr, ha]
    | some v => by_cases hv : v = "" <;> simp [pyOrStr, optStr, ha, hv]
  · simp [pyOrStr, ha]

/-- The or-chain of the title, industry and location fallbacks collapses
to the same spec reading. -/
lemma pyOr_chain2 (a : String) (o : Option String) :
    pyOrStr a (pyOrStr (optStr o) "") = if a = "" then o.getD "" else a := by
  by_cases ha : a = ""
  · cases o with
    | none => simp [pyOrStr, optStr, ha]
    | some v => by_cases hv : v = "" <;> simp [pyOrStr, optStr, ha, hv]
  · simp [pyOrStr, ha]

/-- Claim C1 counterexample: on a record whose delivery fails and whose
later stages raise no exception, the status visible in the output is
no_response, not the send_error string the claim names. -/
theorem claim_C1_counterexample :
    (process_record oC1 emptyLead).status = "no_response" ∧
    "no_response" ≠ "send_error: boom" :=
  ⟨rfl, by decide⟩

/-- Claim C1 amended: the delivery step does set status to the send_error
string and the record does proceed into the response-simulation stage
with that status, but the emitted status of a processed record is never a
send_error string, because simulation or the error handler overwrites
it. -/
theorem claim_C1_amended (o : StageOracle) (l0 lead : Lead) (e d : String) :
    (deliver (Except.error e) lead).status = "send_error: " ++ e ∧
    (∀ l1 l2 l3 l5, enrich_lead o.enrichOut l0 = Except.ok l1 →
      score_lead o.scoreOut l1 = Except.ok l2 →
      draft_email o.draftOut l2 = Except.ok l3 →
      o.sendResult = Except.error e →
      simulate_and_classify_responses o.coin1 o.coin2 o.replyOut o.labelOut
        { l3 with status := "send_error: " ++ e } = Except.ok l5 →
      process_record o l0 = l5) ∧
    (process_record o l0).status ≠ "send_error: " ++ d := by
  refine ⟨rfl, ?_, ?_⟩
  · intro l1 l2 l3 l5 h1 h2 h3 h4 h5
    unfold process_record
    rw [h1]
    dsimp only
    rw [h2]
    dsimp only
    rw [h3]
    dsimp only
    rw [h4]
    simp only [deliver]
    rw [h5]
  · rcases status_cases o l0 with h | h | ⟨e', h⟩ <;> rw [h]
    · exact noResponse_ne_sendError d
    · exact replied_ne_sendError d
    · exact errPrefix_ne_sendError e' d

/-- Claim C1 witness: for a concrete failing delivery, the delivery step
carries the send_error status and the emitted record is the no_response
record produced by the simulation stage. -/
theorem claim_C1_amended_witness :
    (deliver (Except.error "boom") emptyLead).status = "send_error: " ++ "boom" ∧
    process_record oC1 emptyLead = l5W :=
  ⟨(claim_C1_amended oC1 emptyLead emptyLead "boom" "x").1,
   (claim_C1_amended oC1 emptyLead emptyLead "boom" "x").2.1 l1W l2W l3W l5W
     rfl rfl rfl rfl rfl⟩

/-- Claim C2 counterexample: the completion text priority 9 yields the
priority field 9, which is outside the interval the claim states. -/
theorem claim_C2_counterexample :
    Except.map (fun l => l.priority) (score_lead (Except.ok "priority: 9") emptyLead)
      = Except.ok (some (9 : Int)) ∧
    ¬((1 : Int) ≤ 9 ∧ (9 : Int) ≤ 5) :=
  ⟨rfl, by decide⟩

/-- Claim C2 amended: the priority field is always an integer, and when
no priority line of the completion carries any digit the scored priority
is exactly 3; no clamp to the interval one to five is applied. -/
theorem claim_C2_amended (out : String) (p : Int) (r : String)
    (hdig : ∀ line ∈ pySplitlines out,
      pyStartsWith (pyStrip (pyLower line)) "priority" = true →
      line.data.filter Char.isDigit = [])
    (hok : score_parse out = Except.ok (p, r)) : p = 3 :=
  score_fold_default (pySplitlines out) ((3 : Int), "") rfl hdig p r hok

/-- Claim C2 witness: a priority line without digits scores exactly 3. -/
theorem claim_C2_amended_witness :
    score_parse "priority: unknown" = Except.ok ((3 : Int), "") ∧ (3 : Int) = 3 :=
  ⟨rfl, claim_C2_amended "priority: unknown" 3 "" (by decide) rfl⟩

/-- Claim C3 counterexample: a completion with a Subject marker but no
Body marker produces an empty email body. -/
theorem claim_C3_counterexample :
    (draft_apply "Subject: Hello" emptyLead).email_body = "" ∧
    (draft_apply "Subject: Hello" emptyLead).email_subject = "Hello" :=
  ⟨rfl, rfl⟩

/-- Claim C3 amended: the email body can be empty.  Without a Subject
marker the subject is the generated placeholder and the body is the
stripped completion text (empty for whitespace-only text); with a Subject
marker but no Body marker the body is empty. -/
theorem claim_C3_amended (out : String) (lead : Lead) :
    ((pySplitOnce out "Subject:").2 = none →
      (draft_apply out lead).email_subject = "Quick note for " ++ lead.first_name ∧
      (draft_apply out lead).email_body = pyStrip out) ∧
    (∀ parts, (pySplitOnce out "Subject:").2 = some parts →
      (pySplitOnce parts "Body:").2 = none →
      (draft_apply out lead).email_body = "") := by
  constructor
  · intro h
    unfold draft_apply
    cases hsp : pySplitOnce out "Subject:" with
    | mk a b =>
      rw [hsp] at h
      dsimp only at h
      subst h
      exact ⟨rfl, rfl⟩
  · intro parts hs hb
    unfold draft_apply
    cases hsp : pySplitOnce out "Subject:" with
    | mk a b =>
      rw [hsp] at hs
      dsimp only at hs
      subst hs
      dsimp only
      cases hbp : pySplitOnce parts "Body:" with
      | mk c ob =>
        rw [hbp] at hb
        dsimp only at hb
        subst hb
        rfl

/-- Claim C3 witness: a completion without a Subject marker gets the
placeholder subject and the completion itself as body. -/
theorem claim_C3_amended_witness :
    (draft_apply "hello" emptyLead).email_subject = "Quick note for " ++ emptyLead.first_name ∧
    (draft_apply "hello" emptyLead).email_body = pyStrip "hello" :=
  (claim_C3_amended "hello" emptyLead).1 rfl

/-- Claim C4 counterexample: a reason line without a colon raises in the
scoring parse, and an empty classification completion raises in the
label cleanup, so stage parsing can raise. -/
theorem claim_C4_counterexample :
    score_parse "reasoning failed"
      = Except.error "not enough values to unpack (expected 2, got 1)" ∧
    classifyLabel "" = Except.error "list index out of range" :=
  ⟨rfl, rfl⟩

/-- Claim C4 amended: enrichment and drafting parsing are total, and the
two fallible parses succeed under the stated shape conditions: scoring
raises only when some reason line lacks a colon, and the label cleanup
raises only when the classification text has no first line or its first
line has no whitespace token. -/
theorem claim_C4_amended (out : String) :
    ((∀ line ∈ pySplitlines out,
        pyStartsWith (pyStrip (pyLower line)) "reason" = true →
        ((pySplitOnce line ":").2).isSome = true) →
      (score_parse out).isOk = true) ∧
    ((pySplitlines out ≠ [] ∧ wsTokens (pyStrip ((pySplitlines out).headD "")) ≠ []) →
      (classifyLabel out).isOk = true) :=
  ⟨fun hall => score_fold_ok (pySplitlines out) ((3 : Int), "") hall,
   fun h => classify_ok out h.1 h.2⟩

/-- Claim C4 witness: a well-shaped scoring completion and a well-shaped
classification completion both parse without raising. -/
theorem claim_C4_amended_witness :
    (score_parse "priority: 4\nreason: good fit").isOk = true ∧
    (classifyLabel "Interested").isOk = true :=
  ⟨(claim_C4_amended "priority: 4\nreason: good fit").1 (by decide),
   (claim_C4_amended "Interested").2 (by decide)⟩

/-- Claim C5: enrichment never replaces a non-blank company, title,
industry or location; a blank one takes the parsed value for its key when
present, else remains blank. -/
theorem claim_C5_enrichment_preserves (out : String) (lead : Lead) :
    ((enrich_apply out lead).company
      = if lead.company = "" then (dictGet (parseKV out) "company").getD "" else lead.company) ∧
    ((enrich_apply out lead).title
      = if lead.title = "" then (dictGet (parseKV out) "title").getD "" else lead.title) ∧
    ((enrich_apply out lead).industry
      = if lead.industry = "" then (dictGet (parseKV out) "industry").getD "" else lead.industry) ∧
    ((enrich_apply out lead).location
      = if lead.location = "" then (dictGet (parseKV out) "location").getD "" else lead.location) := by
  refine ⟨?_, ?_, ?_, ?_⟩
  · show pyOrStr lead.company
      (pyOrStr (optStr (dictGet (parseKV out) "company")) (pyOrStr lead.company "")) = _
    exact pyOr_chain lead.company (dictGet (parseKV out) "company")
  · show pyOrStr lead.title (pyOrStr (optStr (dictGet (parseKV out) "title")) "") = _
    exact pyOr_chain2 lead.title (dictGet (parseKV out) "title")
  · show pyOrStr lead.industry (pyOrStr (optStr (dictGet (parseKV out) "industry")) "") = _
    exact pyOr_chain2 lead.industry (dictGet (parseKV out) "industry")
  · show pyOrStr lead.location (pyOrStr (optStr (dictGet (parseKV out) "location")) "") = _
    exact pyOr_chain2 lead.location (dictGet (parseKV out) "location")

/-- Claim C6 counterexample: the classification completion Not Interested
produces the category Not, which is outside the four values the claim
allows, because only the first whitespace token is kept. -/
theorem claim_C6_counterexample :
    Except.map (fun l => l.response_category)
      (simulate_and_classify_responses true false (Except.ok "Sounds relevant")
        (Except.ok "Not Interested") lead5)
      = Except.ok "Not" ∧
    ¬("Not" = "Interested" ∨ "Not" = "Maybe" ∨ "Not" = "Not Interested" ∨
      "Not" = "No Response") :=
  ⟨rfl, by decide⟩

/-- Claim C6 amended: without simulation the category is No Response;
with simulation the category is exactly the first whitespace token of the
first line of the classification completion, with no validation against
the allowed label set. -/
theorem claim_C6_amended (c1 c2 : Bool) (rg lg : Except String String) (lead l' : Lead)
    (h : simulate_and_classify_responses c1 c2 rg lg lead = Except.ok l') :
    (simDecision (lead.priority.getD 3) c1 c2 = false →
      l'.response_category = "No Response" ∧ l'.status = "no_response") ∧
    (∀ lab tok, simDecision (lead.priority.getD 3) c1 c2 = true →
      lg = Except.ok lab → classifyLabel lab = Except.ok tok →
      l'.response_category = tok ∧ l'.status = "replied") := by
  constructor
  · intro hf
    unfold simulate_and_classify_responses at h
    dsimp only at h
    rw [if_pos hf] at h
    injection h with h'
    subst h'
    exact ⟨rfl, rfl⟩
  · intro lab tok ht hlab hcl
    unfold simulate_and_classify_responses at h
    dsimp only at h
    rw [if_neg (by simp [ht])] at h
    cases rg with
    | error e => exact Except.noConfusion h
    | ok reply =>
      dsimp only at h
      rw [hlab] at h
      dsimp only at h
      rw [hcl] at h
      dsimp only at h
      injection h with h'
      subst h'
      exact ⟨rfl, rfl⟩

/-- Claim C6 witness: a non-simulating record carries the No Response
category and the no_response status. -/
theorem claim_C6_amended_witness :
    noSimLead.response_category = "No Response" ∧ noSimLead.status = "no_response" :=
  (claim_C6_amended false false (Except.ok "") (Except.ok "") emptyLead noSimLead rfl).1 rfl

/-- Claim C7: any stage exception is caught at the record boundary, the
status becomes the error string on the record as mutated so far, the
remaining stages are skipped, and the record is still emitted in place
while the loop continues over the other records. -/
theorem claim_C7_error_isolation (o : StageOracle) (l0 : Lead) :
    (∀ e, enrich_lead o.enrichOut l0 = Except.error e →
      process_record o l0 = { l0 with status := "error: " ++ e }) ∧
    (∀ l1 e, enrich_lead o.enrichOut l0 = Except.ok l1 →
      score_lead o.scoreOut l1 = Except.error e →
      process_record o l0 = { l1 with status := "error: " ++ e }) ∧
    (∀ l1 l2 e, enrich_lead o.enrichOut l0 = Except.ok l1 →
      score_lead o.scoreOut l1 = Except.ok l2 →
      draft_email o.draftOut l2 = Except.error e →
      process_record o l0 = { l2 with status := "error: " ++ e }) ∧
    (∀ l1 l2 l3 e, enrich_lead o.enrichOut l0 = Except.ok l1 →
      score_lead o.scoreOut l1 = Except.ok l2 →
      draft_email o.draftOut l2 = Except.ok l3 →
      simulate_and_classify_responses o.coin1 o.coin2 o.replyOut o.labelOut
        (deliver o.sendResult l3) = Except.error e →
      process_record o l0 = { deliver o.sendResult l3 with status := "error: " ++ e }) ∧
    (∀ pre post, run_pipeline (pre ++ (o, l0) :: post)
      = run_pipeline pre ++ process_record o l0 :: run_pipeline post) := by
  refine ⟨?_, ?_, ?_, ?_, ?_⟩
  · intro e h1
    unfold process_record
    rw [h1]
  · intro l1 e h1 h2
    unfold process_record
    rw [h1]
    dsimp only
    rw [h2]
  · intro l1 l2 e h1 h2 h3
    unfold process_record
    rw [h1]
    dsimp only
    rw [h2]
    dsimp only
    rw [h3]
  · intro l1 l2 l3 e h1 h2 h3 h4
    unfold process_record
    rw [h1]
    dsimp only
    rw [h2]
    dsimp only
    rw [h3]
    dsimp only
    rw [h4]
  · intro pre post
    simp only [run_pipeline, List.map_append, List.map_cons]

/-- Claim C7 witness: a concrete scoring failure yields the enriched
record with the error status, with no later stage applied. -/
theorem claim_C7_witness :
    process_record oC7 emptyLead = { l1W with status := "error: " ++ "boom" } :=
  (claim_C7_error_isolation oC7 emptyLead).2.1 l1W "boom" rfl rfl

/-- Claim C8 counterexample: a non-empty record set whose priorities are
all non-numeric makes the computed average NaN, while the claim demands
0.0 there; the spec-worded average is 0. -/
theorem claim_C8_counterexample :
    avgPriority [errRow] = none ∧ specAvgPriority [errRow] = 0 ∧
    avgPriority [errRow] ≠ some 0 :=
  ⟨rfl, rfl, by decide⟩

/-- Claim C8 amended: the computed average equals the mean of the numeric
priority values whenever at least one exists, equals 0.0 when the record
set itself is empty, and is NaN (not 0.0) when the set is non-empty but
holds no numeric priority. -/
theorem claim_C8_amended (rows : List Lead) :
    (rows.filterMap (fun r => r.priority) ≠ [] →
      avgPriority rows = some (specAvgPriority rows)) ∧
    (rows = [] → avgPriority rows = some 0) ∧
    (rows ≠ [] → rows.filterMap (fun r => r.priority) = [] → avgPriority rows = none) := by
  refine ⟨?_, ?_, ?_⟩
  · intro hn
    have hr : rows ≠ [] := by
      intro h
      subst h
      exact hn rfl
    have hb1 : ¬(rows.isEmpty = true) := fun h => hr (List.isEmpty_iff.mp h)
    have hb2 : ¬((rows.filterMap (fun r => r.priority)).isEmpty = true) :=
      fun h => hn (List.isEmpty_iff.mp h)
    unfold avgPriority specAvgPriority
    rw [if_neg hb1]
    dsimp only
    rw [if_neg hb2, if_neg hb2]
  · intro h
    subst h
    rfl
  · intro hr hn
    have hb1 : ¬(rows.isEmpty = true) := fun h => hr (List.isEmpty_iff.mp h)
    unfold avgPriority
    rw [if_neg hb1]
    dsimp only
    rw [hn]
    rfl

/-- Claim C8 witness: a set with one scored row takes the spec mean, the
empty set takes 0, and a set with one unscored row takes NaN. -/
theorem claim_C8_amended_witness :
    avgPriority [scoredRow] = some (specAvgPriority [scoredRow]) ∧
    avgPriority ([] : List Lead) = some 0 ∧
    avgPriority [errRow] = none :=
  ⟨(claim_C8_amended [scoredRow]).1 (by decide),
   (claim_C8_amended ([] : List Lead)).2.1 rfl,
   (claim_C8_amended [errRow]).2.2 (List.cons_ne_nil errRow []) (by decide)⟩

/-- Claim C9: every emitted record ends with status no_response, replied
or an error string; the literal sent and the send_error strings never
survive to the output, because the simulation stage writes status in both
of its branches after delivery. -/
theorem claim_C9_final_status (o : StageOracle) (l0 : Lead) :
    ((process_record o l0).status = "no_response" ∨
      (process_record o l0).status = "replied" ∨
      ∃ e, (process_record o l0).status = "error: " ++ e) ∧
    (process_record o l0).status ≠ "sent" ∧
    (∀ d, (process_record o l0).status ≠ "send_error: " ++ d) := by
  refine ⟨status_cases o l0, ?_, ?_⟩
  · rcases status_cases o l0 with h | h | ⟨e, h⟩ <;> rw [h]
    · decide
    · decide
    · exact errPrefix_ne_sent e
  · intro d
    rcases status_cases o l0 with h | h | ⟨e, h⟩ <;> rw [h]
    · exact noResponse_ne_sendError d
    · exact replied_ne_sendError d
    · exact errPrefix_ne_sendError e d

/-- Claim C10: the Sent counter counts rows whose status is sent or
replied, and on every record set the orchestrator produces it equals the
Replied counter, since no emitted record keeps the sent status. -/
theorem claim_C10_sent_eq_replied (inputs : List (StageOracle × Lead)) :
    (generate_report (run_pipeline inputs)).sent
      = (generate_report (run_pipeline inputs)).replied := by
  have hc : List.filter (fun r : Lead => r.status == "sent" || r.status == "replied")
        (run_pipeline inputs)
      = List.filter (fun r : Lead => r.status == "replied") (run_pipeline inputs) := by
    apply List.filter_congr
    intro r hr
    simp only [run_pipeline] at hr
    rcases List.mem_map.mp hr with ⟨p, _, hpr⟩
    rw [← hpr]
    exact sent_or_replied_eq p.1 p.2
  simp only [generate_report]
  rw [hc]

end CRM
